import Mathlib

/-!
Verification of the go-xmpp client library (src/xmpp.go) against its
natural-language specification.

The Go source is shallowly embedded: pure helpers (`xmlEscape`,
`saslDigestResponse`, `connect`'s address derivation) become Lean
functions over `String` / `List Nat` (byte) values; the stateful
negotiation (`init`, `startTlsIfRequired`, the auth-mechanism loop) is
modelled as a function from the options and a scripted sequence of
server reads to the list of frames written on the transport plus the
final result.  Go machine arithmetic (the 32-bit words of MD5) is
`Nat` with explicit `% 2^32`.
-/

deriving instance DecidableEq for Except

namespace GoXmpp

/-! ## MD5 (crypto/md5 as used by `saslDigestResponse`)

Reference implementation of RFC 1321 over byte lists; the Go code calls
`md5.New()/Write/Sum` on byte strings. -/

/-- 2^32, the modulus of the 32-bit words in MD5. -/
def M32 : Nat := 4294967296

/-- Left-rotation of a 32-bit word. -/
def rotl32 (x n : Nat) : Nat := ((x <<< n) ||| (x >>> (32 - n))) % M32

/-- The 64 sine-derived constants of RFC 1321 (K[i] = ⌊|sin(i+1)|·2^32⌋). -/
def md5K : List Nat :=
  [0xd76aa478, 0xe8c7b756, 0x242070db, 0xc1bdceee,
   0xf57c0faf, 0x4787c62a, 0xa8304613, 0xfd469501,
   0x698098d8, 0x8b44f7af, 0xffff5bb1, 0x895cd7be,
   0x6b901122, 0xfd987193, 0xa679438e, 0x49b40821,
   0xf61e2562, 0xc040b340, 0x265e5a51, 0xe9b6c7aa,
   0xd62f105d, 0x02441453, 0xd8a1e681, 0xe7d3fbc8,
   0x21e1cde6, 0xc33707d6, 0xf4d50d87, 0x455a14ed,
   0xa9e3e905, 0xfcefa3f8, 0x676f02d9, 0x8d2a4c8a,
   0xfffa3942, 0x8771f681, 0x6d9d6122, 0xfde5380c,
   0xa4beea44, 0x4bdecfa9, 0xf6bb4b60, 0xbebfbc70,
   0x289b7ec6, 0xeaa127fa, 0xd4ef3085, 0x04881d05,
   0xd9d4d039, 0xe6db99e5, 0x1fa27cf8, 0xc4ac5665,
   0xf4292244, 0x432aff97, 0xab9423a7, 0xfc93a039,
   0x655b59c3, 0x8f0ccc92, 0xffeff47d, 0x85845dd1,
   0x6fa87e4f, 0xfe2ce6e0, 0xa3014314, 0x4e0811a1,
   0xf7537e82, 0xbd3af235, 0x2ad7d2bb, 0xeb86d391]

/-- The per-round left-rotation amounts of RFC 1321. -/
def md5S : List Nat :=
  [7, 12, 17, 22, 7, 12, 17, 22, 7, 12, 17, 22, 7, 12, 17, 22,
   5, 9, 14, 20, 5, 9, 14, 20, 5, 9, 14, 20, 5, 9, 14, 20,
   4, 11, 16, 23, 4, 11, 16, 23, 4, 11, 16, 23, 4, 11, 16, 23,
   6, 10, 15, 21, 6, 10, 15, 21, 6, 10, 15, 21, 6, 10, 15, 21]

/-- One MD5 step: given the 16 message words `m` of the current chunk and
the running `(a,b,c,d)` state, perform step `i` (0 ≤ i < 64). -/
def md5Round (m : List Nat) (st : Nat × Nat × Nat × Nat) (i : Nat) :
    Nat × Nat × Nat × Nat :=
  let a := st.1
  let b := st.2.1
  let c := st.2.2.1
  let d := st.2.2.2
  let fg : Nat × Nat :=
    if i < 16 then ((b &&& c) ||| ((b ^^^ 4294967295) &&& d), i)
    else if i < 32 then ((d &&& b) ||| ((d ^^^ 4294967295) &&& c), (5 * i + 1) % 16)
    else if i < 48 then (b ^^^ c ^^^ d, (3 * i + 5) % 16)
    else (c ^^^ (b ||| (d ^^^ 4294967295)), (7 * i) % 16)
  let tmp := (fg.1 + a + md5K.getD i 0 + m.getD fg.2 0) % M32
  (d, (b + rotl32 tmp (md5S.getD i 0)) % M32, b, c)

/-- `count` bytes of `n` in little-endian order (also truncates `n`). -/
def leBytes : Nat → Nat → List Nat
  | _, 0 => []
  | n, k + 1 => (n % 256) :: leBytes (n / 256) k

/-- The 16 little-endian 32-bit words of a 64-byte chunk. -/
def leWords (chunk : List Nat) : List Nat :=
  (List.range 16).map fun j =>
    chunk.getD (4 * j) 0 + 256 * chunk.getD (4 * j + 1) 0 +
      65536 * chunk.getD (4 * j + 2) 0 + 16777216 * chunk.getD (4 * j + 3) 0

/-- Process one 64-byte chunk. -/
def md5Chunk (h : Nat × Nat × Nat × Nat) (chunk : List Nat) :
    Nat × Nat × Nat × Nat :=
  let m := leWords chunk
  let st := (List.range 64).foldl (md5Round m) h
  ((h.1 + st.1) % M32, (h.2.1 + st.2.1) % M32,
   (h.2.2.1 + st.2.2.1) % M32, (h.2.2.2 + st.2.2.2) % M32)

/-- RFC 1321 padding: a 0x80 byte, zeros to 56 mod 64, then the bit length
as 8 little-endian bytes. -/
def md5Pad (msg : List Nat) : List Nat :=
  msg ++ [128] ++ List.replicate (((56 - (msg.length + 1) % 64) + 64) % 64) 0 ++
    leBytes (8 * msg.length) 8

/-- Split a byte list into 64-byte chunks; `fuel` bounds the recursion
(structural so that the kernel can evaluate it; `fuel = l.length` is
always enough since every step consumes at least one byte). -/
def chunks64Aux : Nat → List Nat → List (List Nat)
  | 0, _ => []
  | _, [] => []
  | fuel + 1, b :: rest => ((b :: rest).take 64) :: chunks64Aux fuel ((b :: rest).drop 64)

/-- Split a (padded) byte list into 64-byte chunks. -/
def chunks64 (l : List Nat) : List (List Nat) := chunks64Aux l.length l

/-- The 16-byte MD5 digest of a byte list. -/
def md5Bytes (msg : List Nat) : List Nat :=
  let st := (chunks64 (md5Pad msg)).foldl md5Chunk
    (0x67452301, 0xefcdab89, 0x98badcfe, 0x10325476)
  leBytes st.1 4 ++ leBytes st.2.1 4 ++ leBytes st.2.2.1 4 ++ leBytes st.2.2.2 4

/-- Lowercase hex digit for a value below 16. -/
def hexDigit (n : Nat) : Char :=
  if n < 10 then Char.ofNat (48 + n) else Char.ofNat (87 + n)

/-- Lowercase hex rendering of a byte list, as produced by Go's
`fmt.Sprintf("%x", bytes)`. -/
def hexOfBytes : List Nat → List Char
  | [] => []
  | b :: rest => hexDigit (b / 16) :: hexDigit (b % 16) :: hexOfBytes rest

/-- The bytes of an ASCII string (Go strings are byte strings; every
string fed to `saslDigestResponse` in this claim is ASCII, where
`Char.toNat` agrees with the UTF-8 byte). -/
def asciiBytes (s : String) : List Nat := s.data.map Char.toNat

/-- Embedding of `saslDigestResponse` (src/xmpp.go:251-272).  The Go code
works on byte strings: `a1` concatenates the raw 16 MD5 bytes of
`user:realm:password` with the ASCII `":" nonce ":" cnonce` suffix. -/
def saslDigestResponse (username realm passwd nonce cnonceStr
    authenticate digestUri nonceCountStr : String) : String :=
  let h := md5Bytes
  let hex := fun (bs : List Nat) => (⟨hexOfBytes bs⟩ : String)
  let kd := fun (secret data : String) =>
    h (asciiBytes secret ++ [58] ++ asciiBytes data)
  let a1 := h (asciiBytes (username ++ ":" ++ realm ++ ":" ++ passwd)) ++
    asciiBytes (":" ++ nonce ++ ":" ++ cnonceStr)
  let a2 := authenticate ++ ":" ++ digestUri
  hex (kd (hex (h a1))
    (nonce ++ ":" ++ nonceCountStr ++ ":" ++ cnonceStr ++ ":auth:" ++
      hex (h (asciiBytes a2))))

/-! ## String helpers (strings.SplitN, strings.TrimSpace) -/

/-- Split a character list at the first occurrence of `sep`; `none` when
`sep` does not occur. -/
def splitAtFirst (sep : Char) : List Char → Option (List Char × List Char)
  | [] => none
  | c :: cs =>
    if c = sep then some ([], cs)
    else (splitAtFirst sep cs).map fun p => (c :: p.1, p.2)

/-- Go `strings.SplitN(s, sep, 2)`: `some (before, after)` when `sep`
occurs (the Go result has length 2), `none` when it does not (length 1). -/
def splitN2 (s : String) (sep : Char) : Option (String × String) :=
  (splitAtFirst sep s.data).map fun p => ((⟨p.1⟩ : String), (⟨p.2⟩ : String))

/-- ASCII whitespace test (the characters Go's `unicode.IsSpace` accepts
that can occur in a host name argument). -/
def isSpaceChar (c : Char) : Bool :=
  c = ' ' || c = '\t' || c = '\n' || c = '\r'

/-- Go `strings.TrimSpace`. -/
def trimSpace (s : String) : String :=
  ⟨(s.data.dropWhile isSpaceChar).reverse.dropWhile isSpaceChar |>.reverse⟩

/-! ## xmlEscape (src/xmpp.go:772-791)

The Go function iterates the bytes of `s` and replaces each of the five
special characters by its named entity via the `xmlSpecial` map.  The
specials are ASCII, and UTF-8 continuation bytes are ≥ 0x80, so the
byte-wise Go loop and this character-wise embedding produce the same
string.  A second, byte-level copy (`xmlEscapeB`) is used for the
byte-level properties of the escape output. -/

/-- The `xmlSpecial` map (src/xmpp.go:772-778). -/
def xmlSpecial (c : Char) : Option String :=
  if c = '<' then some "&lt;"
  else if c = '>' then some "&gt;"
  else if c = '"' then some "&quot;"
  else if c = '\'' then some "&apos;"
  else if c = '&' then some "&amp;"
  else none

/-- Escape one character: the entity when special, the character itself
otherwise. -/
def escChar (c : Char) : List Char :=
  match xmlSpecial c with
  | some s => s.data
  | none => [c]

/-- The buffer loop of `xmlEscape`. -/
def escapeList : List Char → List Char
  | [] => []
  | c :: cs => escChar c ++ escapeList cs

/-- Embedding of `xmlEscape` (src/xmpp.go:780-791). -/
def xmlEscape (s : String) : String := ⟨escapeList s.data⟩

/-- Byte-level escape of one byte (60 `<`, 62 `>`, 34 `"`, 39 `'`, 38 `&`). -/
def escByte (b : Nat) : List Nat :=
  if b = 60 then [38, 108, 116, 59]
  else if b = 62 then [38, 103, 116, 59]
  else if b = 34 then [38, 113, 117, 111, 116, 59]
  else if b = 39 then [38, 97, 112, 111, 115, 59]
  else if b = 38 then [38, 97, 109, 112, 59]
  else [b]

/-- Byte-level embedding of `xmlEscape`, exactly the Go loop over the
bytes of `s`. -/
def xmlEscapeB : List Nat → List Nat
  | [] => []
  | b :: bs => escByte b ++ xmlEscapeB bs

/-- Is this byte one of the five specials? -/
def isSpecialByte (b : Nat) : Bool :=
  b == 60 || b == 62 || b == 34 || b == 39 || b == 38

/-- Modelled from the spec: standard XML entity decoding restricted to
the five named entities (`&lt; &gt; &quot; &apos; &amp;`); a `&` that
does not begin one of them is kept verbatim.  `fuel` bounds the
recursion structurally; `fuel = l.length` is always enough. -/
def xmlUnescapeAux : Nat → List Nat → List Nat
  | 0, _ => []
  | _, [] => []
  | fuel + 1, b :: rest =>
    if b = 38 then
      if [108, 116, 59].isPrefixOf rest then 60 :: xmlUnescapeAux fuel (rest.drop 3)
      else if [103, 116, 59].isPrefixOf rest then 62 :: xmlUnescapeAux fuel (rest.drop 3)
      else if [113, 117, 111, 116, 59].isPrefixOf rest then
        34 :: xmlUnescapeAux fuel (rest.drop 5)
      else if [97, 112, 111, 115, 59].isPrefixOf rest then
        39 :: xmlUnescapeAux fuel (rest.drop 5)
      else if [97, 109, 112, 59].isPrefixOf rest then
        38 :: xmlUnescapeAux fuel (rest.drop 4)
      else b :: xmlUnescapeAux fuel rest
    else b :: xmlUnescapeAux fuel rest

/-- Standard XML entity decoding of a byte list (see `xmlUnescapeAux`). -/
def xmlUnescapeB (l : List Nat) : List Nat := xmlUnescapeAux l.length l

/-- No raw `<`, `>`, `"` or `'` byte occurs in `l`. -/
def noRawSpecialB (l : List Nat) : Bool :=
  l.all fun b => !(b == 60 || b == 62 || b == 34 || b == 39)

/-- Every `&` (38) in `l` begins one of the five named entities. -/
def ampEntityB : List Nat → Bool
  | [] => true
  | b :: rest =>
    (if b = 38 then
      [108, 116, 59].isPrefixOf rest || [103, 116, 59].isPrefixOf rest ||
      [113, 117, 111, 116, 59].isPrefixOf rest ||
      [97, 112, 111, 115, 59].isPrefixOf rest ||
      [97, 109, 112, 59].isPrefixOf rest
     else true) && ampEntityB rest

/-! ## connect (src/xmpp.go:66-110): address derivation

Only the address computation is modelled (the dial and the HTTP CONNECT
exchange are I/O).  `proxyHost` is `url.Parse(proxy).Host` when the
`HTTP_PROXY`/`http_proxy` environment variable is set and parses, `none`
when no proxy is configured. -/

/-- The result of `connect`'s address computation: the `addr` passed to
`net.Dial("tcp", addr)` and the derived `host` value used for the HTTP
CONNECT request. -/
structure ConnectAddrs where
  dialAddr : String
  derivedHost : String
deriving DecidableEq, Repr

/-- Embedding of the address logic of `connect` (src/xmpp.go:66-110).
Note the source captures `addr := host` before deriving the host from
the user and before appending the default port. -/
def connectAddrs (host user : String) (proxyHost : Option String) : ConnectAddrs :=
  let addr := host
  let host1 :=
    if trimSpace host = "" then
      match splitN2 user '@' with
      | some (_, d) => d
      | none => host
    else host
  let host2 :=
    match splitN2 host1 ':' with
    | none => host1 ++ ":5222"
    | some _ => host1
  let addr1 :=
    match proxyHost with
    | some p => p
    | none => addr
  ⟨addr1, host2⟩

/-! ## Wire data model (src/xmpp.go:576-698) -/

/-- `tlsStartTLS` (src/xmpp.go:592-595): the optional `<required/>`
marker decodes into the `Required *string` field (`none` when absent). -/
structure TlsStartTLSM where
  required : Option String
deriving DecidableEq, Repr

/-- `streamFeatures` (src/xmpp.go:576-582), restricted to the fields the
negotiator reads: the optional `<starttls/>` child and the advertised
SASL mechanism names in document order. -/
structure StreamFeaturesM where
  startTLS : Option TlsStartTLSM
  mechanisms : List String
deriving DecidableEq, Repr

/-- `clientIQ` (src/xmpp.go:682-690), restricted to the field `init`
reads: `Bind.Jid`.  encoding/xml leaves `Bind` at its zero value when
the reply has no `<bind>` payload, so `bindJid = ""` models both a
missing `<bind>`/`<jid>` and an explicitly empty one. -/
structure ClientIQM where
  bindJid : String
deriving DecidableEq, Repr

/-! ## Frames written on the transport during `init`

Each constructor records one `fmt.Fprintf(c.conn, ...)` call of the
negotiator with the data interpolated into it (payloads are recorded
before base64 encoding; the surrounding fixed XML text is determined by
the constructor). -/

/-- One frame written to the transport by the negotiator. -/
inductive Frame where
  /-- `<?xml version='1.0'?><stream:stream to='DOMAIN' ...>` (src/xmpp.go:493);
  carries the already-escaped domain. -/
  | streamHeader (domain : String)
  /-- `<starttls xmlns='urn:ietf:params:xml:ns:xmpp-tls'/>` (src/xmpp.go:456). -/
  | starttls
  /-- `<auth ... mechanism='ANONYMOUS' />` (src/xmpp.go:319). -/
  | authAnonymous
  /-- `<auth ... mechanism='PLAIN'>…</auth>` (src/xmpp.go:336); carries the
  raw `\x00 user \x00 password` octets that the source base64-encodes. -/
  | authPlain (raw : String)
  /-- `<auth ... mechanism='DIGEST-MD5'/>` (src/xmpp.go:343). -/
  | authDigestMD5
  /-- `<response xmlns=…>…</response>` (src/xmpp.go:373); carries the
  message that the source base64-encodes. -/
  | saslResponse (message : String)
  /-- Empty `<response xmlns=…/>` (src/xmpp.go:383). -/
  | saslResponseEmpty
  /-- The bind IQ (src/xmpp.go:417-419); carries the cookie and the
  requested resource (`none` when `o.Resource` is empty). -/
  | bindIq (cookie : Nat) (resource : Option String)
  /-- The session IQ (src/xmpp.go:432); carries the escaped domain and
  the cookie. -/
  | sessionIq (domain : String) (cookie : Nat)
  /-- The initial presence (src/xmpp.go:436); carries `o.Status` and
  `o.StatusMessage` exactly as interpolated (not escaped). -/
  | presence (status statusMessage : String)
deriving DecidableEq, Repr

/-- Is this frame an `<auth/>` payload? -/
def Frame.isAuth : Frame → Bool
  | .authAnonymous | .authPlain _ | .authDigestMD5 => true
  | _ => false

/-- Does the trace contain an `<auth/>` frame? -/
def hasAuthFrame (l : List Frame) : Bool := l.any Frame.isAuth

/-! ## Scripted server reads

During negotiation the client performs a fixed sequence of reads; each
`ScriptM` field is the outcome of one of them (`Except.error e` is the
error string the decode step produced).  Each `startStream` call is
collapsed into one outcome covering the header write, the `<stream>`
open check and the `<features>` decode. -/

/-- Outcome of the `<challenge>` read in the DIGEST-MD5 branch
(src/xmpp.go:345-351): decode failure, base64 failure, or the decoded
challenge bytes (as a byte string). -/
inductive ChallengeRead where
  | unmarshalErr (e : String)
  | b64Err (e : String)
  | okRead (decoded : String)
deriving DecidableEq, Repr

/-- Outcome of the `<success>/<failure>` read after authentication
(src/xmpp.go:392-404): the decoded variant, or an error from `next`. -/
inductive NextRead where
  | success
  /-- `saslFailure` with the local name of its inner element. -/
  | failure (reasonLocal : String)
  /-- Some other known stanza with the given qualified name. -/
  | other (space lname : String)
  | nextErr (e : String)
deriving DecidableEq, Repr

/-- The scripted outcomes of every read `init` can perform, in order. -/
structure ScriptM where
  feats1 : Except String StreamFeaturesM
  proceed : Except String Unit
  handshake : Except String Unit
  feats2 : Except String StreamFeaturesM
  challenge : ChallengeRead
  rspauth : ChallengeRead
  authNext : NextRead
  feats3 : Except String StreamFeaturesM
  bindIq : Except String ClientIQM

/-! ## DIGEST-MD5 challenge parsing (src/xmpp.go:353-362) -/

/-- Strip surrounding double quotes, as the source does after checking
`kv[1][0] == '"' && kv[1][len(kv[1])-1] == '"'`.  Returns `none` when
`kv[1]` is empty: indexing `kv[1][0]` then panics in Go. -/
def stripQuotes (v : String) : Option String :=
  match v.data with
  | [] => none
  | c :: cs =>
    if c = '"' ∧ (c :: cs).getLast (by simp) = '"' then
      some ⟨((c :: cs).dropLast).drop 1⟩
    else some ⟨c :: cs⟩

/-- Split on every `sep` (Go `strings.Split`); `fuel` bounds the
recursion structurally (each step consumes the separator, so
`fuel = s.length` is always enough). -/
def splitAllAux : Nat → Char → List Char → List (List Char)
  | 0, _, s => [s]
  | fuel + 1, sep, s =>
    match splitAtFirst sep s with
    | none => [s]
    | some (a, rest) => a :: splitAllAux fuel sep rest

/-- Split a character list on every `sep` (Go `strings.Split`). -/
def splitAll (sep : Char) (s : List Char) : List (List Char) :=
  splitAllAux s.length sep s

/-- The token map built from the challenge (src/xmpp.go:353-362): an
association list in insertion order; lookups scan from the end (later
bindings overwrite, as in a Go map).  `none` models the Go panic on an
empty value (`kv[1][0]` out of range). -/
def parseTokens (s : String) : Option (List (String × String)) :=
  (splitAll ',' s.data).foldl
    (fun acc token =>
      match acc with
      | none => none
      | some m =>
        match splitN2 (trimSpace ⟨token⟩) '=' with
        | none => some m
        | some (k, v) =>
          match stripQuotes v with
          | none => none
          | some v' => some (m ++ [(k, v')]))
    (some [])

/-- Go map lookup with zero-value default: the last binding for `k`,
or `""`. -/
def lookupTok (m : List (String × String)) (k : String) : String :=
  ((m.reverse.find? fun p => p.1 == k).map Prod.snd).getD ""

/-! ## The negotiator (src/xmpp.go:284-439) -/

/-- `Options` (src/xmpp.go:113-156), the fields `init` and
`startTlsIfRequired` read. -/
structure OptionsM where
  user : String
  password : String
  resource : String
  insecureAllowUnencryptedAuth : Bool
  startTLS : Bool
  session : Bool
  status : String
  statusMessage : String

/-- How an `init` run ends: success with the bound JID, an error return,
or a Go runtime panic (possible only in the challenge-token parsing). -/
inductive InitResult where
  | ok (jid : String)
  | err (msg : String)
  | panicked
deriving DecidableEq, Repr

/-- How the authentication-mechanism loop left: fell out / broke
normally, executed a `return err`, or panicked. -/
inductive LoopExit where
  | normal
  | returned (e : String)
  | panicked
deriving DecidableEq, Repr

/-- Exit state of the authentication-mechanism loop
(src/xmpp.go:315-386): the value of the `mechanism` variable, the frames
the loop wrote, and how it left. -/
structure LoopOut where
  mechanism : String
  frames : List Frame
  outcome : LoopExit
deriving Repr

/-- Embedding of the mechanism loop (src/xmpp.go:315-386).  `cn` is the
random `cnonce()` value, `chal`/`rsp` the scripted outcomes of the two
DIGEST-MD5 reads. -/
def authLoop (user pw cn : String) (chal rsp : ChallengeRead) :
    List String → LoopOut
  | [] => ⟨"", [], .normal⟩
  | m :: ms =>
    if m = "ANONYMOUS" then ⟨m, [.authAnonymous], .normal⟩
    else
      match splitN2 user '@' with
      | none =>
        ⟨"", [], .returned ("xmpp: invalid username (want user@domain): " ++ user)⟩
      | some (u, d) =>
        if m = "PLAIN" then
          ⟨m, [.authPlain ("\x00" ++ u ++ "\x00" ++ pw)], .normal⟩
        else if m = "DIGEST-MD5" then
          match chal with
          | .unmarshalErr e =>
            ⟨m, [.authDigestMD5], .returned ("unmarshal <challenge>: " ++ e)⟩
          | .b64Err e => ⟨m, [.authDigestMD5], .returned e⟩
          | .okRead s =>
            match parseTokens s with
            | none => ⟨m, [.authDigestMD5], .panicked⟩
            | some tokens =>
              let realm := lookupTok tokens "realm"
              let nonce := lookupTok tokens "nonce"
              let qop := lookupTok tokens "qop"
              let charset := lookupTok tokens "charset"
              let digestUri := "xmpp/" ++ d
              let nonceCount := "00000001"
              let digest := saslDigestResponse u realm pw nonce cn
                "AUTHENTICATE" digestUri nonceCount
              let message := "username=\"" ++ u ++ "\", realm=\"" ++ realm ++
                "\", nonce=\"" ++ nonce ++ "\", cnonce=\"" ++ cn ++
                "\", nc=" ++ nonceCount ++ ", qop=" ++ qop ++
                ", digest-uri=\"" ++ digestUri ++ "\", response=" ++ digest ++
                ", charset=" ++ charset
              match rsp with
              | .unmarshalErr e =>
                ⟨m, [.authDigestMD5, .saslResponse message],
                 .returned ("unmarshal <challenge>: " ++ e)⟩
              | .b64Err e =>
                ⟨m, [.authDigestMD5, .saslResponse message], .returned e⟩
              | .okRead _ =>
                ⟨m, [.authDigestMD5, .saslResponse message, .saslResponseEmpty],
                 .normal⟩
        else authLoop user pw cn chal rsp ms

/-- Go `fmt` `%v` rendering of a string slice: elements joined by single
spaces. -/
def goJoin : List String → String
  | [] => ""
  | [a] => a
  | a :: b :: rest => a ++ " " ++ goJoin (b :: rest)

/-- Go `fmt.Sprintf("%v", mechs)` for a `[]string`. -/
def goFmtStrList (l : List String) : String := "[" ++ goJoin l ++ "]"

/-- The error built at src/xmpp.go:388 when no advertised mechanism was
accepted. -/
def notAnOptionMsg (mechs : List String) : String :=
  "PLAIN authentication is not an option: " ++ goFmtStrList mechs

/-- Embedding of `startTlsIfRequired` (src/xmpp.go:443-482).  The Go
`switch` has `return f, nil` only in its first case; its other two cases
have empty bodies, so whenever `f.StartTLS != nil` control continues
below the `switch` and `<starttls/>` is written — whatever the
`required` marker or `o.StartTLS` say.  Returns the frames written, and
either an error or the features to use plus whether the transport is now
TLS. -/
def startTlsIfRequired (f : StreamFeaturesM) (oStartTLS : Bool) (enc : Bool)
    (domain : String) (proceed handshake : Except String Unit)
    (feats2 : Except String StreamFeaturesM) :
    List Frame × Except String (StreamFeaturesM × Bool) :=
  match f.startTLS with
  | none => ([], .ok (f, enc))
  | some _ =>
    match proceed with
    | .error e => ([.starttls], .error ("unmarshal <proceed>: " ++ e))
    | .ok _ =>
      match handshake with
      | .error e => ([.starttls], .error ("starttls handshake: " ++ e))
      | .ok _ =>
        match feats2 with
        | .error e => ([.starttls, .streamHeader (xmlEscape domain)], .error e)
        | .ok f2 => ([.starttls, .streamHeader (xmlEscape domain)], .ok (f2, true))

/-- Embedding of `init` (src/xmpp.go:284-439).  `enc0` is whether the
connection handed to `init` is already TLS (`NewClient` wraps it unless
`NoTLS` is set), `cn` the random `cnonce()`, `cookie` the random bind
cookie, `sc` the scripted server reads.  Returns the frames written to
the transport in order, and the result (`ok jid` on success).  Each
`startStream` call writes the stream header and then performs the
scripted features read.  The source's `&iq.Bind == nil` guard
(src/xmpp.go:425) compares the address of a struct field with nil and is
therefore always false; it is modelled as the dead code it is. -/
def init (o : OptionsM) (enc0 : Bool) (cn : String) (cookie : Nat)
    (sc : ScriptM) : List Frame × InitResult :=
  match splitN2 o.user '@' with
  | none =>
    ([], .err ("xmpp: invalid username (want user@domain): " ++ o.user))
  | some (_, domain) =>
    let ws1 : List Frame := [.streamHeader (xmlEscape domain)]
    match sc.feats1 with
    | .error e => (ws1, .err e)
    | .ok f1 =>
      match startTlsIfRequired f1 o.startTLS enc0 domain
          sc.proceed sc.handshake sc.feats2 with
      | (wt, .error e) => (ws1 ++ wt, .err e)
      | (wt, .ok (f, enc1)) =>
        if !enc1 && !o.insecureAllowUnencryptedAuth then
          (ws1 ++ wt,
           .err "refusing to authenticate over unencrypted TCP connection")
        else
          let lp := authLoop o.user o.password cn sc.challenge sc.rspauth
            f.mechanisms
          match lp.outcome with
          | .returned e => (ws1 ++ wt ++ lp.frames, .err e)
          | .panicked => (ws1 ++ wt ++ lp.frames, .panicked)
          | .normal =>
            if lp.mechanism = "" then
              (ws1 ++ wt ++ lp.frames, .err (notAnOptionMsg f.mechanisms))
            else
              match sc.authNext with
              | .nextErr e => (ws1 ++ wt ++ lp.frames, .err e)
              | .failure reason =>
                (ws1 ++ wt ++ lp.frames, .err ("auth failure: " ++ reason))
              | .other space lname =>
                (ws1 ++ wt ++ lp.frames,
                 .err ("expected <success> or <failure>, got <" ++ lname ++
                   "> in " ++ space))
              | .success =>
                let ws2 := ws1 ++ wt ++ lp.frames ++
                  [.streamHeader (xmlEscape domain)]
                match sc.feats3 with
                | .error e => (ws2, .err e)
                | .ok _ =>
                  let bindFrame : Frame :=
                    if o.resource = "" then .bindIq cookie none
                    else .bindIq cookie (some o.resource)
                  let ws3 := ws2 ++ [bindFrame]
                  match sc.bindIq with
                  | .error e => (ws3, .err ("unmarshal <iq>: " ++ e))
                  | .ok iq =>
                    let jid := iq.bindJid
                    let ws4 := ws3 ++
                      (if o.session then
                        [Frame.sessionIq (xmlEscape domain) cookie]
                       else []) ++
                      [Frame.presence o.status o.statusMessage]
                    (ws4, .ok jid)

/-! ## nextStart and Recv (src/xmpp.go:700-713, 543-557)

`nextStart` loops on `p.Token()`.  The decoder is modelled as the finite
list of `(token, error)` pairs its successive `Token()` calls yield; a
run that consumes the whole list without returning is reported as
`none` — in particular, a decoder that persistently yields `io.EOF`
(which it does forever once the stream ends) makes `nextStart` spin
without ever returning. -/

/-- A Go error value as seen by `nextStart`: `io.EOF` or any other
error. -/
inductive GoErr where
  | eof
  | ioErr (msg : String)
deriving DecidableEq, Repr

/-- A qualified XML name. -/
structure QName where
  space : String
  lname : String
deriving DecidableEq, Repr

/-- A token from `xml.Decoder.Token()`: a start element, some other
token (chardata, end element, …), or no token (nil). -/
inductive GoToken where
  | startElement (name : QName)
  | otherTok
deriving DecidableEq, Repr

/-- One `p.Token()` outcome: the token (possibly absent) and the error
(possibly absent). -/
structure TokenRes where
  tok : Option GoToken
  err : Option GoErr
deriving DecidableEq, Repr

/-- Embedding of `nextStart` (src/xmpp.go:701-713) over the listed
`Token()` outcomes.  The source returns the error only when it is
non-nil AND not `io.EOF`; otherwise it switches on the token and loops
unless it is a start element.  `none` means the loop consumed every
listed outcome without returning. -/
def nextStart : List TokenRes → Option (Except GoErr QName)
  | [] => none
  | r :: rs =>
    match r.err with
    | some (.ioErr m) => some (.error (.ioErr m))
    | _ =>
      match r.tok with
      | some (.startElement n) => some (.ok n)
      | _ => nextStart rs

/-- A stanza as classified by `Recv`'s type switch
(src/xmpp.go:549-554): the two returned variants and everything else. -/
inductive StanzaM where
  /-- `*clientMessage` with the fields `Recv` copies into `Chat`. -/
  | message (from_ ty body : String) (other : List String)
  /-- `*clientPresence` with the fields `Recv` copies into `Presence`. -/
  | presence (from_ toA ty show_ : String)
  /-- Any other decoded stanza (skipped by `Recv`). -/
  | otherStanza
deriving DecidableEq, Repr

/-- `Chat` (src/xmpp.go:528-533). -/
structure Chat where
  remote : String
  ty : String
  text : String
  other : List String
deriving DecidableEq, Repr

/-- `Presence` (src/xmpp.go:535-540). -/
structure PresenceEv where
  from_ : String
  toA : String
  ty : String
  show_ : String
deriving DecidableEq, Repr

/-- An event returned by `Recv`. -/
inductive RecvEvent where
  | chat (c : Chat)
  | presence (p : PresenceEv)
deriving DecidableEq, Repr

/-- Embedding of `Recv` (src/xmpp.go:543-557) over the listed outcomes
of its successive `next(c.p)` calls: an error is returned immediately, a
message or presence is returned as its event, anything else is skipped.
`none` means the loop consumed every listed outcome without
returning. -/
def Recv : List (Except GoErr StanzaM) → Option (Except GoErr RecvEvent)
  | [] => none
  | .error e :: _ => some (.error e)
  | .ok s :: rest =>
    match s with
    | .message f t b o => some (.ok (.chat ⟨f, t, b, o⟩))
    | .presence f toA t sh => some (.ok (.presence ⟨f, toA, t, sh⟩))
    | .otherStanza => Recv rest

/-! ## next (src/xmpp.go:718-770): the typed decode dispatch

`next` reads a start element, allocates a prototype value according to
the `(namespace, local)` switch, and calls `p.DecodeElement(nv, &se)`.
For the `challenge` and `response` cases the source assigns the plain
string `""` to the `interface{}` — not a pointer.  encoding/xml's
`Unmarshal` (which `DecodeElement` calls) is documented to reject any
non-pointer value with the error `non-pointer passed to Unmarshal`;
that stdlib behavior is modelled in `decodeElementM`. -/

/-- The prototype `next` allocates for each known qualified name
(src/xmpp.go:727-763). -/
inductive ProtoM where
  | streamFeatures | streamErrorP | tlsStartTLSP | tlsProceedP | tlsFailureP
  | saslMechanismsP
  /-- The `nv = ""` cases (`challenge` and `response`): a non-pointer
  string value. -/
  | strProto
  | saslAbortP | saslSuccessP | saslFailureP | bindBindP
  | clientMessageP | clientPresenceP | clientIQP | clientErrorP
deriving DecidableEq, Repr

/-- The namespaces of src/xmpp.go:36-45. -/
def nsStream : String := "http://etherx.jabber.org/streams"

def nsTLS : String := "urn:ietf:params:xml:ns:xmpp-tls"

def nsSASL : String := "urn:ietf:params:xml:ns:xmpp-sasl"

def nsBind : String := "urn:ietf:params:xml:ns:xmpp-bind"

def nsClient : String := "jabber:client"

/-- The dispatch switch of `next` (src/xmpp.go:727-763), keyed on
`Name.Space + " " + Name.Local`. -/
def nextProto (n : QName) : Except String ProtoM :=
  let key := n.space ++ " " ++ n.lname
  if key = nsStream ++ " features" then .ok .streamFeatures
  else if key = nsStream ++ " error" then .ok .streamErrorP
  else if key = nsTLS ++ " starttls" then .ok .tlsStartTLSP
  else if key = nsTLS ++ " proceed" then .ok .tlsProceedP
  else if key = nsTLS ++ " failure" then .ok .tlsFailureP
  else if key = nsSASL ++ " mechanisms" then .ok .saslMechanismsP
  else if key = nsSASL ++ " challenge" then .ok .strProto
  else if key = nsSASL ++ " response" then .ok .strProto
  else if key = nsSASL ++ " abort" then .ok .saslAbortP
  else if key = nsSASL ++ " success" then .ok .saslSuccessP
  else if key = nsSASL ++ " failure" then .ok .saslFailureP
  else if key = nsBind ++ " bind" then .ok .bindBindP
  else if key = nsClient ++ " message" then .ok .clientMessageP
  else if key = nsClient ++ " presence" then .ok .clientPresenceP
  else if key = nsClient ++ " iq" then .ok .clientIQP
  else if key = nsClient ++ " error" then .ok .clientErrorP
  else .error ("unexpected XMPP message " ++ n.space ++ " <" ++ n.lname ++ "/>")

/-- A top-level stream element as materialized input for `next`: its
qualified name and its character-data content. -/
structure ElemM where
  name : QName
  text : String
deriving DecidableEq, Repr

/-- The value `next` hands back for a successfully decoded element. -/
inductive NextVal where
  /-- What decoding into a string prototype would yield: the element's
  character data. -/
  | strVal (s : String)
  /-- A struct prototype filled from the element. -/
  | structVal (p : ProtoM) (e : ElemM)
deriving DecidableEq, Repr

/-- `p.DecodeElement(nv, &se)` (src/xmpp.go:766): encoding/xml rejects a
non-pointer `nv` with `non-pointer passed to Unmarshal`; the pointer
prototypes decode the element. -/
def decodeElementM (p : ProtoM) (e : ElemM) : Except String NextVal :=
  match p with
  | .strProto => .error "non-pointer passed to Unmarshal"
  | _ => .ok (.structVal p e)

/-- Embedding of `next` (src/xmpp.go:718-770) applied to a start element
already delivered by `nextStart`. -/
def next (e : ElemM) : Except String (QName × NextVal) :=
  match nextProto e.name with
  | .error err => .error err
  | .ok proto =>
    match decodeElementM proto e with
    | .error err => .error err
    | .ok v => .ok (e.name, v)

/-! ## Session frame builders (src/xmpp.go:226-248, 436, 560-568)

The exact strings the `fmt.Fprintf` calls interpolate. -/

/-- `nsMUC` (src/xmpp.go:43). -/
def nsMUC : String := "http://jabber.org/protocol/muc"

/-- The frame `Send` writes (src/xmpp.go:560-568). -/
def sendFrame (remote ty text : String) : String :=
  "<message to='" ++ xmlEscape remote ++ "' type='" ++ xmlEscape ty ++
    "' xml:lang='en'>" ++ "<body>" ++ xmlEscape text ++ "</body></message>"

/-- The frame `JoinMUC` writes (src/xmpp.go:227-232). -/
def joinMUCFrame (jid : String) : String :=
  "<presence to='" ++ xmlEscape jid ++ "'>\n" ++ "<x xmlns='" ++ nsMUC ++
    "'><history maxstanzas='0'/></x>\n" ++ "</presence>"

/-- The frame `LeaveMUC` writes (src/xmpp.go:235-238); `cjid` is the
bound `c.jid`, interpolated without escaping in the source. -/
def leaveMUCFrame (cjid jid : String) : String :=
  "<presence from='" ++ cjid ++ "' to='" ++ xmlEscape jid ++
    "' type='unavailable' />"

/-- The frame `ChangeStatus` writes (src/xmpp.go:246-249). -/
def changeStatusFrame (shw status : String) : String :=
  "<presence xml:lang='en'><show>" ++ xmlEscape shw ++ "</show><status>" ++
    xmlEscape status ++ "</status></presence>"

/-- The initial post-bind presence `init` writes (src/xmpp.go:436):
`o.Status` and `o.StatusMessage` are interpolated with no escaping. -/
def initPresenceFrame (status statusMessage : String) : String :=
  "<presence xml:lang='en'><show>" ++ status ++ "</show><status>" ++
    statusMessage ++ "</status></presence>"

/-- Occurrences of character `c` in `s`. -/
def countChar (c : Char) (s : String) : Nat := s.data.count c

/-! # Theorems -/

set_option maxRecDepth 10000 in
/-- C3: `saslDigestResponse` applied to the RFC 2831 §4 example —
username="chris", realm="elwood.innosoft.com", password="secret",
nonce="OA6MG9tEQGm2hh", cnonce="OA6MHXh6VqTrRk", nc="00000001",
authenticate="AUTHENTICATE", digest-uri="imap/elwood.innosoft.com" —
returns exactly "d388dad90d4bbd760a152321f2143af7", following the
RFC 2831 formula (A1 is the raw MD5 bytes of `user:realm:password`
concatenated with `":" nonce ":" cnonce`, and the response is
`HEX(KD(HEX(H(A1)), nonce:nc:cnonce:auth:HEX(H(A2))))`). -/
theorem saslDigestResponse_rfc2831_vector :
    saslDigestResponse "chris" "elwood.innosoft.com" "secret" "OA6MG9tEQGm2hh"
      "OA6MHXh6VqTrRk" "AUTHENTICATE" "imap/elwood.innosoft.com" "00000001" =
      "d388dad90d4bbd760a152321f2143af7" := by
  decide

/-- C2 (code bug): the claim says that when the server advertises
`<starttls/>` without a `required` marker and the user did not set the
`start_tls` option, no `<starttls/>` is sent and negotiation proceeds
directly to authentication.  The source's `switch` (src/xmpp.go:445-453)
has empty bodies in its second and third cases, so control reaches the
`<starttls/>` write whenever the element is advertised at all: on a
features stanza advertising optional STARTTLS with `o.StartTLS = false`,
the first frame written is `<starttls/>`. -/
theorem startTls_sent_when_optional_and_not_requested :
    startTlsIfRequired ⟨some ⟨none⟩, ["PLAIN"]⟩ false false "example.com"
        (.ok ()) (.ok ()) (.ok ⟨none, ["PLAIN"]⟩) =
      ([.starttls, .streamHeader "example.com"],
       .ok (⟨none, ["PLAIN"]⟩, true)) := by
  decide

/-- C4 (code bug): the claim says a bind reply missing the `<bind>`
payload or its `<jid>` makes construction fail with a Bind error.  The
source's guard `&iq.Bind == nil` (src/xmpp.go:425) takes the address of
a struct field, which is never nil, so the check cannot fire: a
successful run whose bind reply decoded with an absent `<bind>` (zero
value, `Jid = ""`) completes with `c.jid = ""` instead of failing. -/
theorem init_succeeds_with_empty_jid_when_bind_missing :
    init ⟨"u@example.com", "pw", "", false, false, false, "", ""⟩ true "cn" 7
        ⟨.ok ⟨none, ["PLAIN"]⟩, .ok (), .ok (), .ok ⟨none, []⟩, .okRead "",
         .okRead "", .success, .ok ⟨none, []⟩, .ok ⟨""⟩⟩ =
      ([.streamHeader "example.com", .authPlain "\x00u\x00pw",
        .streamHeader "example.com", .bindIq 7 none, .presence "" ""],
       .ok "") := by
  decide

/-- C7 (code bug): the claim says that with no HTTP proxy the TCP dial
target is the derived `host:port` (user's domain when host is empty,
`:5222` appended when no port).  The source captures `addr := host`
before the derivation (src/xmpp.go:67) and dials `addr`
(src/xmpp.go:89), so with `host = ""` and `user = "u@example.com"` the
derivation produces "example.com:5222" but the dial target is the
original empty string. -/
theorem connect_dials_original_host_not_derived :
    connectAddrs "" "u@example.com" none =
      { dialAddr := "", derivedHost := "example.com:5222" } ∧
    ("" : String) ≠ "example.com:5222" := by
  decide

/-- C9 (code bug): the claim says `next` on a top-level
`(urn:ietf:params:xml:ns:xmpp-sasl, challenge)` element succeeds with a
SaslChallenge carrying the text content.  The source's dispatch assigns
the non-pointer string `""` to the prototype (src/xmpp.go:741), and
encoding/xml's Unmarshal rejects any non-pointer value, so `next`
returns the decode error `non-pointer passed to Unmarshal` instead. -/
theorem next_challenge_nonpointer_error :
    next ⟨⟨nsSASL, "challenge"⟩, "abc"⟩ =
      .error "non-pointer passed to Unmarshal" ∧
    next ⟨⟨nsSASL, "challenge"⟩, "abc"⟩ ≠
      .ok (⟨nsSASL, "challenge"⟩, .strVal "abc") := by
  decide

/-- C5 (counterexample): the claim says every transport error during
`Recv`, including end-of-stream (EOF), is returned to the caller.  On a
decoder that reports `io.EOF` (as `xml.Decoder.Token` does, forever,
once the stream ends), `nextStart`'s guard `err != nil && err != io.EOF`
(src/xmpp.go:704) skips the error and loops: across any number of
consecutive EOF results it never returns — in particular it does not
return the EOF error. -/
theorem nextStart_swallows_eof_counterexample :
    nextStart (List.replicate 100 ⟨none, some .eof⟩) = none ∧
    nextStart [⟨none, some GoErr.eof⟩] ≠ some (.error GoErr.eof) := by
  decide

/-- C5 (amended): every non-EOF error from `Token()` is returned by
`nextStart` immediately (whatever token accompanies it), and every error
from `next` is returned by `Recv` immediately; but an `io.EOF` result
with no start element is silently skipped, so `nextStart` — and hence
`Recv` — never returns on a decoder that persistently reports EOF (the
equation for `List.replicate n` shows the loop consumes any number of
EOF results without producing a result). -/
theorem nextStart_error_handling_amended :
    (∀ (m : String) (t : Option GoToken) (rs : List TokenRes),
      nextStart (⟨t, some (.ioErr m)⟩ :: rs) = some (.error (.ioErr m))) ∧
    (∀ rs : List TokenRes,
      nextStart (⟨none, some .eof⟩ :: rs) = nextStart rs) ∧
    (∀ n : Nat,
      nextStart (List.replicate n ⟨none, some GoErr.eof⟩) = none) ∧
    (∀ (e : GoErr) (rest : List (Except GoErr StanzaM)),
      Recv (.error e :: rest) = some (.error e)) := by
  refine ⟨fun m t rs => rfl, fun rs => rfl, fun n => ?_, fun e rest => rfl⟩
  induction n with
  | zero => rfl
  | succ k ih => simpa [List.replicate, nextStart] using ih

/-- C8 (counterexample): the claim says the status and status-message of
the initial post-bind presence are XML-escaped.  The source interpolates
`o.Status` and `o.StatusMessage` directly (src/xmpp.go:436): with
status `"<"` the frame contains a raw `<` from the payload (7 `<`
characters instead of the template's 6) and is not the escaped frame the
claim predicts. -/
theorem initial_presence_unescaped_counterexample :
    countChar '<' (initPresenceFrame "<" "") = 7 ∧
    initPresenceFrame "<" "" ≠
      "<presence xml:lang='en'><show>&lt;</show><status></status></presence>" := by
  decide

/-- C1: when `InsecureAllowUnencryptedAuth` is false and the transport
is not TLS at the policy check (src/xmpp.go:311-313) — i.e. the initial
connection was plain and the server did not advertise STARTTLS, the only
way a run reaches the check unencrypted, since a failed STARTTLS attempt
aborts earlier — construction fails with the explicit refusal error, and
the whole trace is the single stream header: no `<auth/>` payload was
ever written, so the check precedes every authentication mechanism. -/
theorem init_refuses_unencrypted_auth
    (o : OptionsM) (cn : String) (cookie : Nat) (sc : ScriptM)
    (u d : String) (f1 : StreamFeaturesM)
    (hsplit : splitN2 o.user '@' = some (u, d))
    (hallow : o.insecureAllowUnencryptedAuth = false)
    (hfeats : sc.feats1 = .ok f1)
    (hstarttls : f1.startTLS = none) :
    init o false cn cookie sc =
      ([.streamHeader (xmlEscape d)],
       .err "refusing to authenticate over unencrypted TCP connection") ∧
    hasAuthFrame (init o false cn cookie sc).1 = false := by
  have h1 : init o false cn cookie sc =
      ([.streamHeader (xmlEscape d)],
       .err "refusing to authenticate over unencrypted TCP connection") := by
    simp only [init, hsplit, hfeats, startTlsIfRequired, hstarttls, hallow]
    simp
  exact ⟨h1, by rw [h1]; rfl⟩

/-- Witness for C1 at a concrete run: plain transport, policy off,
server advertising only PLAIN and no STARTTLS. -/
theorem init_refuses_unencrypted_auth_witness :
    init ⟨"u@example.com", "pw", "", false, false, false, "", ""⟩ false "cn" 7
        ⟨.ok ⟨none, ["PLAIN"]⟩, .ok (), .ok (), .ok ⟨none, []⟩, .okRead "",
         .okRead "", .success, .ok ⟨none, []⟩, .ok ⟨"j"⟩⟩ =
      ([.streamHeader (xmlEscape "example.com")],
       .err "refusing to authenticate over unencrypted TCP connection") ∧
    hasAuthFrame (init ⟨"u@example.com", "pw", "", false, false, false, "", ""⟩
        false "cn" 7
        ⟨.ok ⟨none, ["PLAIN"]⟩, .ok (), .ok (), .ok ⟨none, []⟩, .okRead "",
         .okRead "", .success, .ok ⟨none, []⟩, .ok ⟨"j"⟩⟩).1 = false :=
  init_refuses_unencrypted_auth _ "cn" 7 _ "u" "example.com" ⟨none, ["PLAIN"]⟩
    (by decide) rfl rfl rfl

/-- Every member of `l` occurs contiguously in the space-joined
rendering `goJoin l`. -/
theorem mem_goJoin_segment {m : String} :
    ∀ {l : List String}, m ∈ l → m.data <:+: (goJoin l).data := by
  intro l
  induction l with
  | nil => intro h; simp at h
  | cons a rest ih =>
    intro h
    rcases List.mem_cons.mp h with rfl | h'
    · cases rest with
      | nil => simp [goJoin]
      | cons b bs =>
        refine List.IsPrefix.isInfix ?_
        refine ⟨(" " ++ goJoin (b :: bs)).data, ?_⟩
        simp [goJoin, String.data_append]
    · cases rest with
      | nil => simp at h'
      | cons b bs =>
        refine (ih h').trans ?_
        refine List.IsSuffix.isInfix ?_
        refine ⟨(a ++ " ").data, ?_⟩
        simp [goJoin, String.data_append]

/-- C6: the authentication-mechanism loop (src/xmpp.go:315-389) assigns
`mechanism` to the first advertised mechanism, in server order, that is
one of ANONYMOUS, PLAIN, DIGEST-MD5 (and leaves it empty — triggering
the `PLAIN authentication is not an option: [...]` error built by
`notAnOptionMsg` — when none matches); and that error message enumerates
the advertised set: every advertised mechanism occurs in it. -/
theorem auth_mechanism_selection_spec
    (user pw cn : String) (chal rsp : ChallengeRead) (mechs : List String)
    (u d : String) (hsplit : splitN2 user '@' = some (u, d)) :
    (authLoop user pw cn chal rsp mechs).mechanism =
      ((mechs.find? fun m =>
        m == "ANONYMOUS" || m == "PLAIN" || m == "DIGEST-MD5").getD "") ∧
    ∀ m ∈ mechs, m.data <:+: (notAnOptionMsg mechs).data := by
  constructor
  · induction mechs with
    | nil => rfl
    | cons m ms ih =>
      by_cases h1 : m = "ANONYMOUS"
      · subst h1; simp [authLoop, List.find?]
      by_cases h2 : m = "PLAIN"
      · subst h2; simp [authLoop, List.find?, hsplit]
      by_cases h3 : m = "DIGEST-MD5"
      · subst h3
        simp only [authLoop, hsplit, if_neg h1, if_neg h2, if_pos rfl]
        cases chal with
        | unmarshalErr e => simp [List.find?]
        | b64Err e => simp [List.find?]
        | okRead s =>
          cases hp : parseTokens s with
          | none => simp [List.find?, hp]
          | some tokens => cases rsp <;> simp [List.find?, hp]
      · have b1 : (m == "ANONYMOUS") = false := beq_eq_false_iff_ne.mpr h1
        have b2 : (m == "PLAIN") = false := beq_eq_false_iff_ne.mpr h2
        have b3 : (m == "DIGEST-MD5") = false := beq_eq_false_iff_ne.mpr h3
        simpa [authLoop, List.find?, hsplit, h1, h2, h3, b1, b2, b3] using ih
  · intro m hm
    have hdata : (notAnOptionMsg mechs).data =
        ("PLAIN authentication is not an option: ".data ++ "[".data) ++
          (goJoin mechs).data ++ "]".data := by
      simp [notAnOptionMsg, goFmtStrList, String.data_append]
    rw [hdata]
    exact (mem_goJoin_segment hm).trans
      (List.infix_append ("PLAIN authentication is not an option: ".data ++
        "[".data) (goJoin mechs).data "]".data)

/-- Witness for C6 at a concrete advertised list: with mechanisms
`["X-OAUTH2", "PLAIN"]` the loop picks PLAIN (the first supported one),
and the non-supported mechanism name occurs in the would-be error
message. -/
theorem auth_mechanism_selection_spec_witness :
    splitN2 "u@example.com" '@' = some ("u", "example.com") ∧
    (authLoop "u@example.com" "pw" "cn" (.okRead "") (.okRead "")
        ["X-OAUTH2", "PLAIN"]).mechanism =
      (((["X-OAUTH2", "PLAIN"] : List String).find? fun m =>
        m == "ANONYMOUS" || m == "PLAIN" || m == "DIGEST-MD5").getD "") ∧
    "X-OAUTH2".data <:+: (notAnOptionMsg ["X-OAUTH2", "PLAIN"]).data :=
  ⟨by decide,
   (auth_mechanism_selection_spec "u@example.com" "pw" "cn" (.okRead "")
      (.okRead "") ["X-OAUTH2", "PLAIN"] "u" "example.com" (by decide)).1,
   (auth_mechanism_selection_spec "u@example.com" "pw" "cn" (.okRead "")
      (.okRead "") ["X-OAUTH2", "PLAIN"] "u" "example.com" (by decide)).2
     "X-OAUTH2" (by decide)⟩

/-- Escaping cannot shorten a byte list. -/
theorem length_le_xmlEscapeB (s : List Nat) :
    s.length ≤ (xmlEscapeB s).length := by
  induction s with
  | nil => simp [xmlEscapeB]
  | cons b s' ih =>
    have h1 : 1 ≤ (escByte b).length := by
      unfold escByte; split_ifs <;> simp
    simp only [xmlEscapeB, List.length_append, List.length_cons]
    omega

/-- Entity decoding undoes escaping, given enough fuel (one unit per
original byte). -/
theorem unescape_escape_aux :
    ∀ (s : List Nat) (fuel : Nat), s.length ≤ fuel →
      xmlUnescapeAux fuel (xmlEscapeB s) = s := by
  intro s
  induction s with
  | nil => intro fuel _; cases fuel <;> simp [xmlEscapeB, xmlUnescapeAux]
  | cons b s' ih =>
    intro fuel h
    obtain ⟨f, rfl⟩ : ∃ f, fuel = f + 1 := by
      cases fuel
      · simp at h
      · exact ⟨_, rfl⟩
    have hf : s'.length ≤ f := by simp at h; omega
    by_cases h60 : b = 60
    · subst h60
      simp [xmlEscapeB, escByte, xmlUnescapeAux, List.isPrefixOf, ih f hf]
    by_cases h62 : b = 62
    · subst h62
      simp [xmlEscapeB, escByte, xmlUnescapeAux, List.isPrefixOf, ih f hf]
    by_cases h34 : b = 34
    · subst h34
      simp [xmlEscapeB, escByte, xmlUnescapeAux, List.isPrefixOf, ih f hf]
    by_cases h39 : b = 39
    · subst h39
      simp [xmlEscapeB, escByte, xmlUnescapeAux, List.isPrefixOf, ih f hf]
    by_cases h38 : b = 38
    · subst h38
      simp [xmlEscapeB, escByte, xmlUnescapeAux, List.isPrefixOf, ih f hf]
    · have hesc : escByte b = [b] := by
        simp [escByte, h60, h62, h34, h39, h38]
      simp only [xmlEscapeB, hesc, List.cons_append, List.nil_append,
        xmlUnescapeAux, if_neg h38]
      rw [ih f hf]

/-- The escape of a single byte contains no raw special. -/
theorem noRaw_escByte (b : Nat) : noRawSpecialB (escByte b) = true := by
  by_cases h60 : b = 60
  · subst h60; decide
  by_cases h62 : b = 62
  · subst h62; decide
  by_cases h34 : b = 34
  · subst h34; decide
  by_cases h39 : b = 39
  · subst h39; decide
  by_cases h38 : b = 38
  · subst h38; decide
  · simp [escByte, h60, h62, h34, h39, h38, noRawSpecialB]

/-- Prepending the escape of one byte preserves the `&`-entity
invariant. -/
theorem amp_escByte_append (b : Nat) (t : List Nat) :
    ampEntityB (escByte b ++ t) = ampEntityB t := by
  by_cases h60 : b = 60
  · subst h60; simp [escByte, ampEntityB, List.isPrefixOf]
  by_cases h62 : b = 62
  · subst h62; simp [escByte, ampEntityB, List.isPrefixOf]
  by_cases h34 : b = 34
  · subst h34; simp [escByte, ampEntityB, List.isPrefixOf]
  by_cases h39 : b = 39
  · subst h39; simp [escByte, ampEntityB, List.isPrefixOf]
  by_cases h38 : b = 38
  · subst h38; simp [escByte, ampEntityB, List.isPrefixOf]
  · have hesc : escByte b = [b] := by
      simp [escByte, h60, h62, h34, h39, h38]
    simp [hesc, ampEntityB, h38]

/-- C10: byte-level safety and invertibility of `xmlEscape`
(src/xmpp.go:772-791): standard XML entity decoding of the output
recovers the input exactly; the output contains no raw `<`, `>`, `"` or
`'` byte; every `&` in the output begins one of the five named entities;
and a byte list free of the five specials passes through unchanged. -/
theorem xmlEscape_safe_roundtrip (s : List Nat) :
    xmlUnescapeB (xmlEscapeB s) = s ∧
    noRawSpecialB (xmlEscapeB s) = true ∧
    ampEntityB (xmlEscapeB s) = true ∧
    ((s.all fun b => !isSpecialByte b) = true → xmlEscapeB s = s) := by
  refine ⟨unescape_escape_aux s (xmlEscapeB s).length (length_le_xmlEscapeB s),
    ?_, ?_, ?_⟩
  · induction s with
    | nil => decide
    | cons b s' ih =>
      simp only [xmlEscapeB, noRawSpecialB, List.all_append]
      have h1 := noRaw_escByte b
      simp only [noRawSpecialB] at h1 ih
      rw [h1, ih]
      rfl
  · induction s with
    | nil => decide
    | cons b s' ih => rw [xmlEscapeB, amp_escByte_append]; exact ih
  · intro hall
    induction s with
    | nil => rfl
    | cons b s' ih =>
      simp only [List.all_cons, Bool.and_eq_true] at hall
      obtain ⟨h1, h2⟩ := hall
      have hb : isSpecialByte b = false := by
        cases h : isSpecialByte b
        · rfl
        · rw [h] at h1; simp at h1
      have n60 : b ≠ 60 := fun hh => by subst hh; simp [isSpecialByte] at hb
      have n62 : b ≠ 62 := fun hh => by subst hh; simp [isSpecialByte] at hb
      have n34 : b ≠ 34 := fun hh => by subst hh; simp [isSpecialByte] at hb
      have n39 : b ≠ 39 := fun hh => by subst hh; simp [isSpecialByte] at hb
      have n38 : b ≠ 38 := fun hh => by subst hh; simp [isSpecialByte] at hb
      rw [xmlEscapeB, ih h2]
      simp [escByte, n60, n62, n34, n39, n38]

/-- Witness for C10: the conjuncts at the concrete input "a<b&c"
(bytes 97 60 98 38 99), and pass-through at the special-free "hi"
(bytes 104 105). -/
theorem xmlEscape_safe_roundtrip_witness :
    xmlUnescapeB (xmlEscapeB [97, 60, 98, 38, 99]) = [97, 60, 98, 38, 99] ∧
    noRawSpecialB (xmlEscapeB [97, 60, 98, 38, 99]) = true ∧
    ampEntityB (xmlEscapeB [97, 60, 98, 38, 99]) = true ∧
    xmlEscapeB [104, 105] = [104, 105] :=
  ⟨(xmlEscape_safe_roundtrip [97, 60, 98, 38, 99]).1,
   (xmlEscape_safe_roundtrip [97, 60, 98, 38, 99]).2.1,
   (xmlEscape_safe_roundtrip [97, 60, 98, 38, 99]).2.2.1,
   (xmlEscape_safe_roundtrip [104, 105]).2.2.2 (by decide)⟩

/-- The escape of one character contains no `<`, `>`, `"` or `'`. -/
theorem count_escChar (c ch : Char)
    (hc : c = '<' ∨ c = '>' ∨ c = '"' ∨ c = '\'') :
    List.count c (escChar ch) = 0 := by
  by_cases h1 : ch = '<'
  · subst h1; rcases hc with rfl | rfl | rfl | rfl <;> decide
  by_cases h2 : ch = '>'
  · subst h2; rcases hc with rfl | rfl | rfl | rfl <;> decide
  by_cases h3 : ch = '"'
  · subst h3; rcases hc with rfl | rfl | rfl | rfl <;> decide
  by_cases h4 : ch = '\''
  · subst h4; rcases hc with rfl | rfl | rfl | rfl <;> decide
  by_cases h5 : ch = '&'
  · subst h5; rcases hc with rfl | rfl | rfl | rfl <;> decide
  · have hesc : escChar ch = [ch] := by
      simp [escChar, xmlSpecial, h1, h2, h3, h4, h5]
    rw [hesc]
    have hne : ch ≠ c := by
      rcases hc with rfl | rfl | rfl | rfl <;> assumption
    simp [List.count_cons, hne]

/-- The full escape output contains no `<`, `>`, `"` or `'`. -/
theorem count_escapeList (c : Char)
    (hc : c = '<' ∨ c = '>' ∨ c = '"' ∨ c = '\'') :
    ∀ l : List Char, List.count c (escapeList l) = 0 := by
  intro l
  induction l with
  | nil => rfl
  | cons ch l' ih =>
    rw [escapeList, List.count_append, count_escChar c ch hc, ih]

/-- `xmlEscape` output contains no `<`, `>`, `"` or `'`. -/
theorem countChar_xmlEscape (c : Char)
    (hc : c = '<' ∨ c = '>' ∨ c = '"' ∨ c = '\'') (s : String) :
    countChar c (xmlEscape s) = 0 :=
  count_escapeList c hc s.data

set_option maxHeartbeats 2000000 in
/-- C8 (amended): the user strings of `Send` (to, type, body), the MUC
jid of `JoinMUC`/`LeaveMUC` and the show/status of `ChangeStatus` are
passed through `xmlEscape`, so the counts of raw `<` and `'` in those
frames are exactly the fixed template's, independent of the payload
(`LeaveMUC` additionally interpolates the bound `c.jid` verbatim, which
is server-assigned, not user-supplied); the initial post-bind presence,
however, interpolates `o.Status`/`o.StatusMessage` with no escaping, so
every raw `<` of those payloads reaches the frame. -/
theorem frames_escape_user_strings_amended :
    (∀ r t x, countChar '<' (sendFrame r t x) = 4 ∧
      countChar '\'' (sendFrame r t x) = 6) ∧
    (∀ j, countChar '<' (joinMUCFrame j) = 5 ∧
      countChar '\'' (joinMUCFrame j) = 6) ∧
    (∀ cj j, countChar '<' (leaveMUCFrame cj j) = countChar '<' cj + 1 ∧
      countChar '\'' (leaveMUCFrame cj j) = countChar '\'' cj + 6) ∧
    (∀ sh st, countChar '<' (changeStatusFrame sh st) = 6 ∧
      countChar '\'' (changeStatusFrame sh st) = 2) ∧
    (∀ st sm, countChar '<' (initPresenceFrame st sm) =
      6 + countChar '<' st + countChar '<' sm) := by
  have elt : ∀ l, List.count '<' (escapeList l) = 0 :=
    count_escapeList _ (Or.inl rfl)
  have eap : ∀ l, List.count '\'' (escapeList l) = 0 :=
    count_escapeList _ (Or.inr (Or.inr (Or.inr rfl)))
  have hdx : ∀ s : String, (xmlEscape s).data = escapeList s.data :=
    fun _ => rfl
  refine ⟨fun r t x => ⟨?_, ?_⟩, fun j => ⟨?_, ?_⟩, fun cj j => ⟨?_, ?_⟩,
    fun sh st => ⟨?_, ?_⟩, fun st sm => ?_⟩ <;>
    simp only [sendFrame, joinMUCFrame, leaveMUCFrame, changeStatusFrame,
      initPresenceFrame, nsMUC, countChar, String.data_append,
      List.count_append, hdx, elt, eap] <;>
    simp [List.count_cons] <;>
    omega

end GoXmpp
